import Mathlib

/-!
Formal model of the pyzbus actor runtime (src/zactor.py).

Envelopes are JSON objects; we model them as partial maps from string keys
to a small value type covering the shapes the runtime manipulates: strings
(identities, message names, uuid hex ids), integers (timestamps, sequence
numbers, payload values), and lists of strings (the ReplyTo header).
Python dict semantics are modelled pointwise: `d.update(other)` takes the
value from `other` when the key is present there, `d.get(k)` is lookup, a
missing key is `none`. A stored null value is identified with an absent key
(no claim distinguishes them). Time is an integer parameter; fresh uuids
are explicit parameters.
-/

namespace Pyzbus

inductive Val where
  | vstr : String → Val
  | vint : Int → Val
  | vlist : List String → Val
deriving DecidableEq, Repr

def Dict : Type := String → Option Val

def Dict.empty : Dict := fun _ => none

/-- Python `a.update(b)`: keys present in `b` win, other keys keep `a`'s value. -/
def dictUpdate (a b : Dict) : Dict := fun k =>
  match b k with
  | some v => some v
  | none => a k

/-- Python truthiness of `d.get(k)`: `None`, `""`, `0` and `[]` are falsy. -/
def truthy : Option Val → Bool
  | none => false
  | some (.vstr s) => !(s == "")
  | some (.vint n) => !(n == 0)
  | some (.vlist l) => !(l == [])

/-- Python `'{}'.format(v)` on the values the runtime formats (message names
are strings in every claim; other renderings are best effort). -/
def pyStr : Option Val → String
  | none => "None"
  | some (.vstr s) => s
  | some (.vint n) => toString n
  | some (.vlist l) => toString l

/-- One Correlation Table entry (src/zactor.py lines 309-313): a one-shot
event flag and a result slot. -/
structure AskEntry where
  eventSet : Bool
  result : Dict

/-- The mutable actor state the claims touch (class attributes of ZActor,
src/zactor.py lines 36-57): identity, the two counters, idle bookkeeping,
the Correlation Table `ask_pool`, the settings mapping, and the time of the
last self-initiated reconnect. -/
structure ActorState where
  uid : String
  sent_message_count : Nat
  receive_message_count : Nat
  last_msg_time : Int
  last_msg_time_sum : Int
  ask_pool : String → Option AskEntry
  settings : Dict
  last_pub_sub_reconnect : Int

def poolInsert (p : String → Option AskEntry) (k : String) (e : AskEntry) :
    String → Option AskEntry :=
  fun x => if x = k then some e else p x

def poolRemove (p : String → Option AskEntry) (k : String) :
    String → Option AskEntry :=
  fun x => if x = k then none else p x

/-- `tell` (src/zactor.py lines 278-292): increment `sent_message_count`,
stamp `Id`, `SendTime`, `From`, `Sequence` onto the message, publish, and
return the stamped message. `newId` stands for `uuid.uuid4().hex`, `now`
for `time.time()`. -/
def tell (st : ActorState) (newId : String) (now : Int) (msg : Dict) :
    ActorState × Dict :=
  let c := st.sent_message_count + 1
  let stamped : Dict := fun k =>
    if k = "Id" then some (.vstr newId)
    else if k = "SendTime" then some (.vint now)
    else if k = "From" then some (.vstr st.uid)
    else if k = "Sequence" then some (.vint (c : Int))
    else msg k
  ({ st with sent_message_count := c }, stamped)

/-- The send half of `ask` (src/zactor.py lines 295-314): increment
`sent_message_count`, stamp `Id`, `SendTime`, `From` and
`ReplyTo = [self.uid]` (note: no `Sequence` stamp), create the
Correlation Table entry keyed by the fresh id, and publish. -/
def ask_send (st : ActorState) (msg_id : String) (now : Int) (msg : Dict) :
    ActorState × Dict :=
  let c := st.sent_message_count + 1
  let stamped : Dict := fun k =>
    if k = "Id" then some (.vstr msg_id)
    else if k = "SendTime" then some (.vint now)
    else if k = "From" then some (.vstr st.uid)
    else if k = "ReplyTo" then some (.vlist [st.uid])
    else msg k
  ({ st with
      sent_message_count := c,
      ask_pool := poolInsert st.ask_pool msg_id ⟨false, Dict.empty⟩ },
   stamped)

/-- The wait half of `ask` (src/zactor.py lines 315-329). The outcome of
`event.wait(timeout)` equals the entry's event flag at wake-up time: if it
is set, take the result and delete the entry; otherwise log a warning and
return an empty dict — the code has no `del` on the timeout path, so the
entry stays in `ask_pool`. -/
def ask_wait (st : ActorState) (msg_id : String) : ActorState × Dict :=
  match st.ask_pool msg_id with
  | some e =>
      if e.eventSet then
        ({ st with ask_pool := poolRemove st.ask_pool msg_id }, e.result)
      else
        (st, Dict.empty)
  | none => (st, Dict.empty)

/-- The branch of the receive loop taken when the subscribe-channel read
raises `zmq.ZMQError` (src/zactor.py lines 217-223). The guard is the
source's expression verbatim: `self.last_pub_sub_reconnect - time.time() > 1`.
Both outcomes end in `continue`, so the loop never terminates on an error:
the only question is whether the error is logged (with a SUB socket
reconnect) or silently swallowed. -/
inductive SubErrorAction where
  | logAndReconnectRetry
  | silentRetry
deriving DecidableEq, Repr

def sub_error_branch (last_pub_sub_reconnect now : Int) : SubErrorAction :=
  if last_pub_sub_reconnect - now > 1 then .logAndReconnectRetry
  else .silentRetry

/-- What one iteration of the receive loop does with a decoded frame
(observable outcome of src/zactor.py lines 232-259). -/
inductive RecvAction where
  | delivered (rid : String)
  | unexpectedReply
  | dispatched (handlerName : String)
  | unknownMessage
deriving DecidableEq, Repr

/-- `self.ask_pool.get(reply_to_id)` with a truthy `reply_to_id`: the pool
is keyed by uuid hex strings, so a non-string value matches no entry. -/
def lookupAsk (p : String → Option AskEntry) : Option Val → Option (String × AskEntry)
  | some (.vstr s) => match p s with
    | some e => some (s, e)
    | none => none
  | _ => none

/-- One iteration of the receive loop after a successful read and JSON
decode (src/zactor.py lines 225-259). `handlers` is the set of `on_<...>`
attribute names the actor has. Line 226 reads
`self.receive_message_count +1` — an expression without assignment — so
the received counter is left unchanged; `last_msg_time` and
`last_msg_time_sum` are updated, `Received` is stamped, and the frame is
either delivered to a waiting ask entry, logged as an unexpected reply,
spawned to its `on_<Message>` handler, or logged as unknown. -/
def receive_step (handlers : List String) (st : ActorState) (now : Int)
    (msg0 : Dict) : ActorState × RecvAction :=
  let st1 := { st with last_msg_time := now, last_msg_time_sum := 0 }
  let msg : Dict := fun k =>
    if k = "Received" then some (.vint now) else msg0 k
  let rid := msg "ReplyToId"
  if truthy rid then
    match lookupAsk st1.ask_pool rid with
    | some (s, _) =>
        ({ st1 with ask_pool := poolInsert st1.ask_pool s ⟨true, msg⟩ },
         .delivered s)
    | none => (st1, .unexpectedReply)
  else
    let h := "on_" ++ pyStr (msg "Message")
    if h ∈ handlers then (st1, .dispatched h)
    else (st1, .unknownMessage)

/-- The receive loop over a list of timestamped decoded frames. -/
def processList (handlers : List String) (st : ActorState) :
    List (Int × Dict) → ActorState × List RecvAction
  | [] => (st, [])
  | (now, m) :: rest =>
      let p := receive_step handlers st now m
      let q := processList handlers p.1 rest
      (q.1, p.2 :: q.2)

/-- The header keys stripped by `_remove_msg_headers`
(src/zactor.py lines 268-274), verbatim — note that `ReplyTo` and
`PingId` are not in the list. -/
def msgHeaderKeys : List String :=
  ["Id", "ReplyToId", "To", "Received", "From", "Message",
   "SendTime", "Sequence"]

/-- `_remove_msg_headers` (src/zactor.py lines 268-274): copy the dict and
pop every key of the fixed header list that is present. -/
def remove_msg_headers (msg : Dict) : Dict := fun k =>
  if k ∈ msgHeaderKeys then none else msg k

/-- The settings transformation of `on_UpdateSettings`
(src/zactor.py lines 404-414): `self.settings.update(self._remove_msg_headers(msg))`.
The remainder of the handler (trace logging, the `apply_settings` no-op
extension point, persisting to settings.cache) does not touch the mapping. -/
def on_UpdateSettings_apply (settings msg : Dict) : Dict :=
  dictUpdate settings ( remove_msg_headers msg)

/-- Keys that `check_reply` and `tell` overwrite on the outgoing reply:
the reply headers set at src/zactor.py lines 23-27 and the stamps of
`tell` at lines 281-286. -/
def specialKeys : List String :=
  ["To", "Message", "ReplyToId", "Id", "SendTime", "From", "Sequence"]

/-- The reply-header dict built in `check_reply`
(src/zactor.py lines 23-27) for one target: `To`, `Message` with the
`Reply` suffix, and `ReplyToId = msg['Id']`. -/
def replyHeaders (tgt : String) (msg : Dict) : Dict := fun k =>
  if k = "To" then some (.vstr tgt)
  else if k = "Message" then some (.vstr (pyStr (msg "Message") ++ "Reply"))
  else if k = "ReplyToId" then msg "Id"
  else none

/-- The `for to in msg.get('ReplyTo')` loop of `check_reply`
(src/zactor.py lines 20-29). `res` is mutated in place: the reply headers
are written into it with `res.update(reply)` and `agent.tell(res)` stamps
it further, so the accumulator passed to the next iteration is the stamped
dict. `ids` supplies the fresh uuid for each `tell`. Returns the final
state, the final `res`, and the list of envelopes handed to `tell`, in
order. -/
def replyLoop (st : ActorState) (now : Int) (ids : List String) (msg : Dict) :
    List String → Dict → ActorState × Dict × List Dict
  | [], res => (st, res, [])
  | tgt :: rest, res =>
      let res1 := dictUpdate res (replyHeaders tgt msg)
      let p := tell st (ids.headD "") now res1
      let q := replyLoop p.1 now ids.tail msg rest p.2
      (q.1, q.2.1, p.2 :: q.2.2)

/-- Python iteration over the `ReplyTo` value: the runtime only ever puts
a list of identities there; any other shape is outside every claim. -/
def asTargets : Option Val → List String
  | some (.vlist l) => l
  | _ => []

/-- The `check_reply` decorator body after the wrapped handler has
returned `res0` (src/zactor.py lines 16-31): if `msg.get('ReplyTo')` is
truthy, send one reply per listed target (a falsy `res0` — `None` or an
empty dict — is first replaced by `{}`); otherwise send nothing. Returns
the new state and the envelopes handed to `tell`. -/
def check_reply (st : ActorState) (now : Int) (ids : List String)
    (msg : Dict) (res0 : Option Dict) : ActorState × List Dict :=
  if truthy (msg "ReplyTo") then
    let p := replyLoop st now ids msg (asTargets (msg "ReplyTo"))
      (res0.getD Dict.empty)
    (p.1, p.2.2)
  else (st, [])

/-- The body of `on_Ping` (src/zactor.py lines 382-393) without its
decorator: if `msg.get('ReplyTo')` is falsy, tell a `Pong` with
`To = msg.get('From')` and `PingId = msg.get('Id')`; the handler returns
`None`. Returns the state, the remaining uuid supply, and the envelopes
handed to `tell`. -/
def pongOf (msg : Dict) : Dict := fun k =>
  if k = "Message" then some (.vstr "Pong")
  else if k = "To" then msg "From"
  else if k = "PingId" then msg "Id"
  else none

def on_Ping_body (st : ActorState) (now : Int) (ids : List String)
    (msg : Dict) : ActorState × List String × List Dict :=
  if truthy (msg "ReplyTo") then (st, ids, [])
  else
    let p := tell st (ids.headD "") now (pongOf msg)
    (p.1, ids.tail, [p.2])

/-- `on_Ping` as dispatched: the body, then the `check_reply` wrapper
acting on the handler's `None` result. Returns the state and every
envelope handed to `tell`, in order. -/
def on_Ping_run (st : ActorState) (now : Int) (ids : List String)
    (msg : Dict) : ActorState × List Dict :=
  let p := on_Ping_body st now ids msg
  let q := check_reply p.1 now p.2.1 msg none
  (q.1, p.2.2 ++ q.2)

/-- What `on_Pong` records (src/zactor.py lines 396-400):
`self.last_ping_id = msg.get('PingId')`, then it sets the pong event. -/
def on_Pong_record (pongMsg : Dict) : Option Val := pongMsg "PingId"

/-- Number of `Pong` envelopes in a list of sends. -/
def countPongs (sends : List Dict) : Nat :=
  sends.countP (fun s => decide (s "Message" = some (.vstr "Pong")))

/-- Observable actions of one iteration of the heartbeat loop `ping`
(src/zactor.py lines 350-374). -/
inductive PingAct where
  | tellPing
  | disconnectPub
  | disconnectSub
  | connectSub
  | connectPub
  | logReconnect
  | logMismatch
  | sleepSec (n : Nat)
deriving DecidableEq, Repr

/-- `reconnect_pub_sub` (src/zactor.py lines 344-348): disconnect both
sockets, then reconnect both. -/
def reconnect_pub_sub : List PingAct :=
  [.disconnectPub, .disconnectSub, .connectSub, .connectPub]

/-- One iteration of the `while True` heartbeat loop
(src/zactor.py lines 350-374). The Ping is told; `pongArrival` is the Pong
envelope the dispatcher delivered to `on_Pong` before the 5-second
`pong_event.wait` expired (`none` when the wait timed out). On timeout:
record the reconnect time, reconnect both sockets, log, sleep 1. On a pong
whose recorded `PingId` (`self.last_ping_id`, set by `on_Pong`) differs
from the told Ping's `Id`: log the mismatch, reconnect, log, sleep 1.
Either way the iteration ends with the `ping_interval` sleep. -/
def pingMsgOf (st : ActorState) : Dict := fun k =>
  if k = "Message" then some (.vstr "Ping")
  else if k = "To" then some (.vstr st.uid)
  else none

def ping_iteration (st : ActorState) (newId : String) (now : Int)
    (interval : Nat) (pongArrival : Option Dict) : ActorState × List PingAct :=
  let p := tell st newId now (pingMsgOf st)
  match pongArrival with
  | none =>
      ({ p.1 with last_pub_sub_reconnect := now },
       [.tellPing] ++ reconnect_pub_sub
         ++ [.logReconnect, .sleepSec 1, .sleepSec interval])
  | some pongMsg =>
      let lastPingId := on_Pong_record pongMsg
      if lastPingId ≠ p.2 "Id" then
        (p.1,
         [.tellPing, .logMismatch] ++ reconnect_pub_sub
           ++ [.logReconnect, .sleepSec 1, .sleepSec interval])
      else (p.1, [.tellPing, .sleepSec interval])

/-- A sender-side trace of outbound sends: each element is the message
mapping handed to `tell` or to `ask`. -/
inductive SendOp where
  | tellOp (msg : Dict)
  | askOp (msg : Dict)

/-- Run a trace of sends (uuid and clock arguments do not affect the
`Sequence` bookkeeping, so they are fixed). Returns the final state and
each operation paired with the envelope it put on the wire. -/
def runSends (st : ActorState) : List SendOp → ActorState × List (SendOp × Dict)
  | [] => (st, [])
  | .tellOp m :: rest =>
      let p := tell st "" 0 m
      let q := runSends p.1 rest
      (q.1, (.tellOp m, p.2) :: q.2)
  | .askOp m :: rest =>
      let p := ask_send st "" 0 m
      let q := runSends p.1 rest
      (q.1, (.askOp m, p.2) :: q.2)

/-- The `Sequence` values stamped on the `tell` sends of a trace, in send
order. -/
def tellSeqs (outs : List (SendOp × Dict)) : List Int :=
  outs.filterMap (fun p =>
    match p.1, p.2 "Sequence" with
    | .tellOp _, some (.vint n) => some n
    | _, _ => none)

/-- Number of `tell` operations in a trace. -/
def countTells (ops : List SendOp) : Nat :=
  ops.countP (fun o => match o with | .tellOp _ => true | .askOp _ => false)

/-- A fresh actor as configured at startup: empty Correlation Table,
zeroed counters. -/
def demoState : ActorState :=
  { uid := "u"
    sent_message_count := 0
    receive_message_count := 0
    last_msg_time := 0
    last_msg_time_sum := 0
    ask_pool := fun _ => none
    settings := Dict.empty
    last_pub_sub_reconnect := 0 }

/-- A minimal request payload handed to `ask`. -/
def askDemoMsg : Dict := fun k =>
  if k = "Message" then some (.vstr "KeepAlive") else none

/-- A reply frame for the ask stamped with `Id = "rid1"`, carrying a
payload key `X`. -/
def askDemoReply : Dict := fun k =>
  if k = "ReplyToId" then some (.vstr "rid1")
  else if k = "X" then some (.vint 7) else none

/-- C1: `ask` whose reply is delivered before the timeout returns exactly
the received reply and removes the Correlation Table entry; but on
timeout, `ask` returns an empty mapping while the entry keyed by the
stamped `Id` is still in `ask_pool` — the code has no `del` on the
timeout path (src/zactor.py lines 324-329), so the claim's "in both cases
the entry no longer exists" fails on the timeout case. -/
theorem ask_timeout_leaves_entry :
    (∀ k, (ask_wait (ask_send demoState "rid1" 5 askDemoMsg).1 "rid1").2 k
        = none)
    ∧ ((ask_wait (ask_send demoState "rid1" 5 askDemoMsg).1 "rid1").1.ask_pool
        "rid1").isSome = true
    ∧ (ask_wait (receive_step [] (ask_send demoState "rid1" 5 askDemoMsg).1 6
        askDemoReply).1 "rid1").2 "X" = some (.vint 7)
    ∧ (ask_wait (receive_step [] (ask_send demoState "rid1" 5 askDemoMsg).1 6
        askDemoReply).1 "rid1").2 "ReplyToId" = some (.vstr "rid1")
    ∧ (ask_wait (receive_step [] (ask_send demoState "rid1" 5 askDemoMsg).1 6
        askDemoReply).1 "rid1").1.ask_pool "rid1" = none :=
  ⟨fun _ => rfl, rfl, rfl, rfl, rfl⟩

/-- C2: the guard of the subscribe-read error handler compares in the
wrong direction (`self.last_pub_sub_reconnect - time.time() > 1`,
src/zactor.py line 219), so for every error raised at or after the last
self-initiated reconnect — in particular one 10 seconds later, which the
claim says must be logged — the loop silently retries; the log-and-retry
branch is unreachable. The error never terminates the loop (every outcome
is a retry). -/
theorem sub_error_always_silent :
    (∀ (l : Int) (d : Nat), sub_error_branch l (l + d) = .silentRetry)
    ∧ sub_error_branch 0 10 = .silentRetry := by
  refine ⟨fun l d => ?_, rfl⟩
  unfold sub_error_branch
  rw [if_neg (by omega)]

/-- C4: every iteration of the receive loop that decodes a frame sets
`last_msg_time` to now and resets the cumulative idle counter, but the
received-message counter is left unchanged: line 226 of src/zactor.py
computes `self.receive_message_count +1` without assigning it. -/
theorem receive_counter_unchanged (handlers : List String) (st : ActorState)
    (now : Int) (msg : Dict) :
    (receive_step handlers st now msg).1.receive_message_count
        = st.receive_message_count
    ∧ (receive_step handlers st now msg).1.last_msg_time = now
    ∧ (receive_step handlers st now msg).1.last_msg_time_sum = 0 := by
  unfold receive_step
  dsimp only
  repeat' split
  all_goals simp

/-- C3 counterexample: the envelope published by `ask` carries no
`Sequence` header at all — `ask` increments `sent_message_count` but its
`msg.update` (src/zactor.py lines 299-304) stamps only `Id`, `SendTime`,
`From` and `ReplyTo`, so not every tell/ask send stamps a `Sequence`. -/
theorem ask_send_stamps_no_sequence :
    (ask_send demoState "id0" 0 askDemoMsg).2 "Sequence" = none
    ∧ (ask_send demoState "id0" 0 askDemoMsg).2 "Id" = some (.vstr "id0") :=
  ⟨rfl, rfl⟩

lemma sent_count_tell (st : ActorState) (i : String) (n : Int) (m : Dict) :
    (tell st i n m).1.sent_message_count = st.sent_message_count + 1 := rfl

lemma sent_count_ask (st : ActorState) (i : String) (n : Int) (m : Dict) :
    (ask_send st i n m).1.sent_message_count = st.sent_message_count + 1 := rfl

lemma tellSeqs_cons_tell (st : ActorState) (m : Dict) (rest : List SendOp) :
    tellSeqs (runSends st (.tellOp m :: rest)).2
      = ((st.sent_message_count + 1 : Nat) : Int)
          :: tellSeqs (runSends (tell st "" 0 m).1 rest).2 := by
  simp [runSends, tellSeqs, List.filterMap_cons, tell]

lemma tellSeqs_cons_ask (st : ActorState) (m : Dict) (rest : List SendOp) :
    tellSeqs (runSends st (.askOp m :: rest)).2
      = tellSeqs (runSends (ask_send st "" 0 m).1 rest).2 := by
  simp [runSends, tellSeqs, List.filterMap_cons]

lemma tellSeqs_lb (ops : List SendOp) :
    ∀ (st : ActorState) (n : Int), n ∈ tellSeqs (runSends st ops).2 →
      (st.sent_message_count : Int) < n := by
  induction ops with
  | nil => intro st n h; simp [runSends, tellSeqs] at h
  | cons op rest ih =>
    intro st n h
    cases op with
    | tellOp m =>
      rw [tellSeqs_cons_tell] at h
      rcases List.mem_cons.mp h with h | h
      · subst h; push_cast; omega
      · have hlt := ih _ _ h
        rw [sent_count_tell] at hlt
        push_cast at hlt ⊢; omega
    | askOp m =>
      rw [tellSeqs_cons_ask] at h
      have hlt := ih _ _ h
      rw [sent_count_ask] at hlt
      push_cast at hlt ⊢; omega

lemma tellSeqs_pairwise (ops : List SendOp) :
    ∀ st : ActorState, List.Pairwise (· < ·) (tellSeqs (runSends st ops).2) := by
  induction ops with
  | nil => intro st; simp [runSends, tellSeqs]
  | cons op rest ih =>
    intro st
    cases op with
    | tellOp m =>
      rw [tellSeqs_cons_tell]
      refine List.Pairwise.cons ?_ (ih _)
      intro n hn
      have hlt := tellSeqs_lb rest _ n hn
      rw [sent_count_tell] at hlt
      push_cast at hlt ⊢; omega
    | askOp m =>
      rw [tellSeqs_cons_ask]; exact ih _

lemma tellSeqs_length (ops : List SendOp) :
    ∀ st : ActorState,
      (tellSeqs (runSends st ops).2).length = countTells ops := by
  induction ops with
  | nil => intro st; simp [runSends, tellSeqs, countTells]
  | cons op rest ih =>
    intro st
    cases op with
    | tellOp m =>
      rw [tellSeqs_cons_tell]
      simp [countTells, List.countP_cons]
      exact ih _
    | askOp m =>
      rw [tellSeqs_cons_ask]
      simp [countTells, List.countP_cons]
      exact ih _

/-- C3 amended: `tell` stamps `Sequence` with the freshly incremented
sent counter, and across any trace of tell/ask sends the `Sequence`
values stamped on the `tell` sends are strictly increasing, with one
value per `tell` (so none is skipped); `ask` increments the counter but
stamps no `Sequence` header (see the counterexample). -/
theorem tell_sequences_strictly_increasing :
    (∀ (st : ActorState) (i : String) (n : Int) (m : Dict),
        (tell st i n m).2 "Sequence"
          = some (.vint ((st.sent_message_count + 1 : Nat) : Int)))
    ∧ (∀ (st : ActorState) (ops : List SendOp),
        List.Pairwise (· < ·) (tellSeqs (runSends st ops).2))
    ∧ (∀ (st : ActorState) (ops : List SendOp),
        (tellSeqs (runSends st ops).2).length = countTells ops) :=
  ⟨fun _ _ _ _ => rfl,
   fun st ops => tellSeqs_pairwise ops st,
   fun st ops => tellSeqs_length ops st⟩

/-- The spec example: settings start as A maps to 1, B maps to 2. -/
def exampleSettings : Dict := fun k =>
  if k = "A" then some (.vint 1)
  else if k = "B" then some (.vint 2) else none

/-- The spec example envelope: Message UpdateSettings, B maps to 3,
C maps to 4. -/
def exampleUpdateMsg : Dict := fun k =>
  if k = "Message" then some (.vstr "UpdateSettings")
  else if k = "B" then some (.vint 3)
  else if k = "C" then some (.vint 4) else none

/-- C5: handling `UpdateSettings` merges exactly the keys surviving the
header strip into the settings and leaves every other settings key
unchanged; on the spec example it produces A=1, B=3, C=4 with the header
key `Message` not leaking into the settings. -/
theorem update_settings_merge :
    (∀ (settings msg : Dict) (k : String), k ∈ msgHeaderKeys →
        on_UpdateSettings_apply settings msg k = settings k)
    ∧ (∀ (settings msg : Dict) (k : String) (v : Val), k ∉ msgHeaderKeys →
        msg k = some v → on_UpdateSettings_apply settings msg k = some v)
    ∧ (∀ (settings msg : Dict) (k : String), msg k = none →
        on_UpdateSettings_apply settings msg k = settings k)
    ∧ on_UpdateSettings_apply exampleSettings exampleUpdateMsg "A"
        = some (.vint 1)
    ∧ on_UpdateSettings_apply exampleSettings exampleUpdateMsg "B"
        = some (.vint 3)
    ∧ on_UpdateSettings_apply exampleSettings exampleUpdateMsg "C"
        = some (.vint 4)
    ∧ on_UpdateSettings_apply exampleSettings exampleUpdateMsg "Message"
        = none
    ∧ on_UpdateSettings_apply exampleSettings exampleUpdateMsg "D" = none := by
  refine ⟨?_, ?_, ?_, rfl, rfl, rfl, rfl, rfl⟩
  · intro settings msg k hk
    unfold on_UpdateSettings_apply dictUpdate remove_msg_headers
    rw [if_pos hk]
  · intro settings msg k v hk hv
    unfold on_UpdateSettings_apply dictUpdate remove_msg_headers
    rw [if_neg hk, hv]
  · intro settings msg k hv
    unfold on_UpdateSettings_apply dictUpdate remove_msg_headers
    by_cases hk : k ∈ msgHeaderKeys
    · rw [if_pos hk]
    · rw [if_neg hk, hv]

theorem update_settings_merge_witness :
    on_UpdateSettings_apply exampleSettings exampleUpdateMsg "Sequence"
        = exampleSettings "Sequence"
    ∧ on_UpdateSettings_apply exampleSettings exampleUpdateMsg "C"
        = some (.vint 4)
    ∧ on_UpdateSettings_apply exampleSettings exampleUpdateMsg "A"
        = exampleSettings "A" :=
  ⟨update_settings_merge.1 exampleSettings exampleUpdateMsg "Sequence"
      (by decide),
   update_settings_merge.2.1 exampleSettings exampleUpdateMsg "C" (.vint 4)
      (by decide) rfl,
   update_settings_merge.2.2.1 exampleSettings exampleUpdateMsg "A" rfl⟩

/-- C10: the header strip removes exactly the eight listed keys; `ReplyTo`
is not among them, so it survives the strip, and an `UpdateSettings`
envelope that carries `ReplyTo` — as every envelope sent through `ask`
does, since `ask` stamps `ReplyTo = [self.uid]` — gets its `ReplyTo` list
merged into the settings mapping as a settings key. -/
theorem replyto_merged_into_settings :
    "ReplyTo" ∉ msgHeaderKeys
    ∧ (∀ (msg : Dict) (k : String), k ∈ msgHeaderKeys →
        remove_msg_headers msg k = none)
    ∧ (∀ (msg : Dict) (k : String), k ∉ msgHeaderKeys →
        remove_msg_headers msg k = msg k)
    ∧ (∀ (settings msg : Dict) (v : Val), msg "ReplyTo" = some v →
        on_UpdateSettings_apply settings msg "ReplyTo" = some v)
    ∧ (ask_send demoState "q1" 0 exampleUpdateMsg).2 "ReplyTo"
        = some (.vlist ["u"])
    ∧ on_UpdateSettings_apply exampleSettings
        (ask_send demoState "q1" 0 exampleUpdateMsg).2 "ReplyTo"
        = some (.vlist ["u"]) := by
  refine ⟨by decide, ?_, ?_, ?_, rfl, rfl⟩
  · intro msg k hk
    unfold remove_msg_headers
    rw [if_pos hk]
  · intro msg k hk
    unfold remove_msg_headers
    rw [if_neg hk]
  · intro settings msg v hv
    unfold on_UpdateSettings_apply dictUpdate remove_msg_headers
    rw [if_neg (by decide), hv]

theorem replyto_merged_into_settings_witness :
    remove_msg_headers exampleUpdateMsg "Id" = none
    ∧ remove_msg_headers exampleUpdateMsg "ReplyTo"
        = exampleUpdateMsg "ReplyTo"
    ∧ on_UpdateSettings_apply exampleSettings
        (ask_send demoState "q1" 0 exampleUpdateMsg).2 "ReplyTo"
        = some (.vlist ["u"]) :=
  ⟨replyto_merged_into_settings.2.1 exampleUpdateMsg "Id" (by decide),
   replyto_merged_into_settings.2.2.1 exampleUpdateMsg "ReplyTo" (by decide),
   replyto_merged_into_settings.2.2.2.1 exampleSettings
     (ask_send demoState "q1" 0 exampleUpdateMsg).2 (.vlist ["u"]) rfl⟩

lemma tell_apply (st : ActorState) (i : String) (n : Int) (m : Dict)
    (k : String) :
    (tell st i n m).2 k
      = if k = "Id" then some (.vstr i)
        else if k = "SendTime" then some (.vint n)
        else if k = "From" then some (.vstr st.uid)
        else if k = "Sequence"
          then some (.vint ((st.sent_message_count + 1 : Nat) : Int))
        else m k := rfl

lemma dictUpdate_apply (a b : Dict) (k : String) :
    dictUpdate a b k
      = match b k with
        | some v => some v
        | none => a k := rfl

lemma replyHeaders_apply (tgt : String) (msg : Dict) (k : String) :
    replyHeaders tgt msg k
      = if k = "To" then some (.vstr tgt)
        else if k = "Message"
          then some (.vstr (pyStr (msg "Message") ++ "Reply"))
        else if k = "ReplyToId" then msg "Id"
        else none := rfl

lemma replyLoop_forall2 (now : Int) (msg : Dict) (idv : Val)
    (hid : msg "Id" = some idv) :
    ∀ (targets : List String) (st : ActorState) (ids : List String)
      (res base : Dict),
    (∀ k, k ∉ specialKeys → res k = base k) →
    List.Forall₂ (fun tgt s =>
        s "To" = some (.vstr tgt)
        ∧ s "Message" = some (.vstr (pyStr (msg "Message") ++ "Reply"))
        ∧ s "ReplyToId" = some idv
        ∧ ∀ k, k ∉ specialKeys → s k = base k)
      targets (replyLoop st now ids msg targets res).2.2 := by
  intro targets
  induction targets with
  | nil => intro st ids res base hres; exact List.Forall₂.nil
  | cons tgt rest ih =>
    intro st ids res base hres
    have hs : ∀ k, k ∉ specialKeys →
        (tell st (ids.headD "") now
          (dictUpdate res (replyHeaders tgt msg))).2 k = base k := by
      intro k hk
      have hk0 := hk
      simp [specialKeys, not_or] at hk
      obtain ⟨h1, h2, h3, h4, h5, h6, h7⟩ := hk
      rw [tell_apply, if_neg h4, if_neg h5, if_neg h6, if_neg h7,
        dictUpdate_apply, replyHeaders_apply, if_neg h1, if_neg h2,
        if_neg h3]
      exact hres k hk0
    refine List.Forall₂.cons ⟨rfl, rfl, ?_, hs⟩ (ih _ _ _ base hs)
    rw [tell_apply, if_neg (by decide), if_neg (by decide),
      if_neg (by decide), if_neg (by decide), dictUpdate_apply,
      replyHeaders_apply, if_neg (by decide), if_neg (by decide),
      if_pos rfl, hid]

lemma replyLoop_message (now : Int) (msg : Dict) :
    ∀ (targets : List String) (st : ActorState) (ids : List String)
      (res : Dict),
      ∀ s ∈ (replyLoop st now ids msg targets res).2.2,
        s "Message" = some (.vstr (pyStr (msg "Message") ++ "Reply")) := by
  intro targets
  induction targets with
  | nil => intro st ids res s hs; exact absurd hs (List.not_mem_nil s)
  | cons tgt rest ih =>
    intro st ids res s hs
    rcases List.mem_cons.mp hs with h | h
    · subst h; rfl
    · exact ih _ _ _ _ h

/-- C7: when the inbound envelope of a `check_reply`-wrapped handler
carries a non-empty `ReplyTo` list, exactly one reply is told per listed
target (the two lists are aligned element-by-element), each reply has
`To` equal to the listed target, `Message` equal to the original message
name with `Reply` appended, `ReplyToId` equal to the original envelope's
`Id`, and carries every key/value pair of the handler's result mapping
whose key is not one of the headers the wrapper and `tell` overwrite;
with no `ReplyTo`, nothing is sent. -/
theorem check_reply_replies (st : ActorState) (now : Int) (ids : List String)
    (msg : Dict) (res : Dict) (targets : List String) (idv : Val)
    (hrt : msg "ReplyTo" = some (.vlist targets)) (hne : targets ≠ [])
    (hid : msg "Id" = some idv) :
    (check_reply st now ids msg (some res)).2.length = targets.length
    ∧ List.Forall₂ (fun tgt s =>
        s "To" = some (.vstr tgt)
        ∧ s "Message" = some (.vstr (pyStr (msg "Message") ++ "Reply"))
        ∧ s "ReplyToId" = some idv
        ∧ ∀ (k : String) (v : Val), k ∉ specialKeys → res k = some v →
            s k = some v)
      targets (check_reply st now ids msg (some res)).2
    ∧ (∀ m2 : Dict, m2 "ReplyTo" = none →
        (check_reply st now ids m2 (some res)).2 = []) := by
  have htr2 : truthy (some (Val.vlist targets)) = true := by
    simpa [truthy] using hne
  have hcr : (check_reply st now ids msg (some res)).2
      = (replyLoop st now ids msg targets res).2.2 := by
    simp only [check_reply, hrt]
    rw [if_pos htr2]
    rfl
  have hforall := replyLoop_forall2 now msg idv hid targets st ids res res
    (fun _ _ => rfl)
  refine ⟨?_, ?_, ?_⟩
  · rw [hcr]; exact hforall.length_eq.symm
  · rw [hcr]
    refine hforall.imp (fun tgt s hts => ?_)
    exact ⟨hts.1, hts.2.1, hts.2.2.1,
      fun k v hk hv => by rw [hts.2.2.2 k hk]; exact hv⟩
  · intro m2 h2
    simp [check_reply, h2, truthy]

/-- An ask-style request as seen by a handler: non-empty `ReplyTo`. -/
def replyDemoMsg : Dict := fun k =>
  if k = "Message" then some (.vstr "UpdateSettings")
  else if k = "Id" then some (.vstr "q7")
  else if k = "ReplyTo" then some (.vlist ["a", "b"]) else none

/-- A handler result mapping. -/
def replyDemoRes : Dict := fun k =>
  if k = "Status" then some (.vstr "ok") else none

theorem check_reply_replies_witness :
    (check_reply demoState 0 ["u1", "u2"] replyDemoMsg
        (some replyDemoRes)).2.length = (["a", "b"] : List String).length :=
  (check_reply_replies demoState 0 ["u1", "u2"] replyDemoMsg replyDemoRes
    ["a", "b"] (.vstr "q7") rfl (by decide) rfl).1

/-- A Ping that carries an explicitly empty `ReplyTo` list. -/
def pingEmptyReplyTo : Dict := fun k =>
  if k = "Message" then some (.vstr "Ping")
  else if k = "Id" then some (.vstr "pid1")
  else if k = "From" then some (.vstr "w")
  else if k = "ReplyTo" then some (.vlist []) else none

/-- C6 counterexample: this Ping carries a `ReplyTo` header (an empty
list), yet `on_Ping` sends a Pong for it — `not msg.get('ReplyTo')`
(src/zactor.py line 386) is true for an empty list just as for an absent
key, so "a Ping that carries ReplyTo does not produce a Pong" is false
as stated. -/
theorem ping_empty_replyto_sends_pong :
    pingEmptyReplyTo "ReplyTo" = some (.vlist [])
    ∧ countPongs (on_Ping_run demoState 0 ["x1"] pingEmptyReplyTo).2 = 1
    ∧ ((on_Ping_run demoState 0 ["x1"] pingEmptyReplyTo).2.headD
        Dict.empty) "Message" = some (.vstr "Pong") :=
  ⟨rfl, rfl, rfl⟩

lemma tell_pong_message (st : ActorState) (i : String) (n : Int)
    (msg : Dict) :
    (tell st i n (pongOf msg)).2 "Message" = some (.vstr "Pong") := rfl

lemma tell_pong_to (st : ActorState) (i : String) (n : Int) (msg : Dict) :
    (tell st i n (pongOf msg)).2 "To" = msg "From" := rfl

lemma tell_pong_pingid (st : ActorState) (i : String) (n : Int)
    (msg : Dict) :
    (tell st i n (pongOf msg)).2 "PingId" = msg "Id" := rfl

/-- C6 amended: for an inbound Ping whose `ReplyTo` is falsy (absent or
an empty list) the actor tells exactly one envelope, a Pong whose `To`
equals the ping's `From` and whose `PingId` equals the ping's `Id`;
for a Ping carrying a non-empty `ReplyTo` list no Pong is sent (only
`PingReply` correlation replies). -/
theorem on_Ping_pong_spec (msg : Dict) (f i : String)
    (hm : msg "Message" = some (.vstr "Ping"))
    (hf : msg "From" = some (.vstr f))
    (hi : msg "Id" = some (.vstr i)) :
    (∀ (st : ActorState) (now : Int) (ids : List String),
        truthy (msg "ReplyTo") = false →
        (on_Ping_run st now ids msg).2.length = 1
        ∧ countPongs (on_Ping_run st now ids msg).2 = 1
        ∧ ∀ s ∈ (on_Ping_run st now ids msg).2,
            s "Message" = some (.vstr "Pong")
            ∧ s "To" = some (.vstr f)
            ∧ s "PingId" = some (.vstr i))
    ∧ (∀ (st : ActorState) (now : Int) (ids : List String)
        (l : List String),
        msg "ReplyTo" = some (.vlist l) → l ≠ [] →
        countPongs (on_Ping_run st now ids msg).2 = 0) := by
  constructor
  · intro st now ids htr
    have hfalse : ¬(truthy (msg "ReplyTo") = true) := by simp [htr]
    have hrun : (on_Ping_run st now ids msg).2
        = [(tell st (ids.headD "") now (pongOf msg)).2] := by
      simp only [on_Ping_run, on_Ping_body, check_reply]
      rw [if_neg hfalse, if_neg hfalse]
      rfl
    rw [hrun]
    refine ⟨rfl, ?_, ?_⟩
    · simp [countPongs, List.countP_cons, tell_pong_message]
    · intro s hs
      rcases List.mem_cons.mp hs with h | h
      · subst h
        exact ⟨tell_pong_message st (ids.headD "") now msg,
          by rw [tell_pong_to, hf], by rw [tell_pong_pingid, hi]⟩
      · exact absurd h (List.not_mem_nil s)
  · intro st now ids l hrt hne
    have htr : truthy (msg "ReplyTo") = true := by
      rw [hrt]; simpa [truthy] using hne
    have hrun : (on_Ping_run st now ids msg).2
        = (replyLoop st now ids msg l Dict.empty).2.2 := by
      simp only [on_Ping_run, on_Ping_body, check_reply]
      rw [if_pos htr, if_pos htr, hrt]
      rfl
    rw [hrun]
    simp only [countPongs]
    refine List.countP_eq_zero.mpr (fun s hs => ?_)
    have hmess := replyLoop_message now msg l st ids Dict.empty s hs
    rw [hm] at hmess
    rw [hmess]
    decide

/-- A Ping with no `ReplyTo` at all (tell-style). -/
def pingNoReplyTo : Dict := fun k =>
  if k = "Message" then some (.vstr "Ping")
  else if k = "Id" then some (.vstr "pid2")
  else if k = "From" then some (.vstr "w") else none

/-- A Ping carrying a non-empty `ReplyTo` (ask-style). -/
def pingAskStyle : Dict := fun k =>
  if k = "Message" then some (.vstr "Ping")
  else if k = "Id" then some (.vstr "pid3")
  else if k = "From" then some (.vstr "w")
  else if k = "ReplyTo" then some (.vlist ["a"]) else none

theorem on_Ping_pong_spec_witness :
    countPongs (on_Ping_run demoState 0 ["x1"] pingNoReplyTo).2 = 1
    ∧ countPongs (on_Ping_run demoState 0 ["x1"] pingAskStyle).2 = 0 :=
  ⟨((on_Ping_pong_spec pingNoReplyTo "w" "pid2" rfl rfl rfl).1
      demoState 0 ["x1"] rfl).2.1,
   (on_Ping_pong_spec pingAskStyle "w" "pid3" rfl rfl rfl).2
      demoState 0 ["x1"] ["a"] rfl (by decide)⟩

/-- C8: a reply frame whose `ReplyToId` matches no pending ask entry and
a non-reply frame with no registered `on_<Message>` handler are each
logged and discarded (leaving the Correlation Table untouched), and the
loop goes on: a following well-formed frame is still dispatched to its
handler. -/
theorem dispatch_survives_bad_frames
    (handlers : List String) (st : ActorState) (t1 t2 t3 : Int)
    (m1 m2 m3 : Dict)
    (h1t : truthy (m1 "ReplyToId") = true)
    (h1u : lookupAsk st.ask_pool (m1 "ReplyToId") = none)
    (h2t : truthy (m2 "ReplyToId") = false)
    (h2u : ("on_" ++ pyStr (m2 "Message")) ∉ handlers)
    (h3t : truthy (m3 "ReplyToId") = false)
    (h3h : ("on_" ++ pyStr (m3 "Message")) ∈ handlers) :
    (processList handlers st [(t1, m1), (t2, m2), (t3, m3)]).2
      = [.unexpectedReply, .unknownMessage,
         .dispatched ("on_" ++ pyStr (m3 "Message"))]
    ∧ (processList handlers st [(t1, m1), (t2, m2), (t3, m3)]).1.ask_pool
        = st.ask_pool := by
  have e1 : ∀ (t : Int) (m : Dict),
      (fun k => if k = "Received" then some (Val.vint t) else m k)
        "ReplyToId" = m "ReplyToId" := fun _ _ => rfl
  have e2 : ∀ (t : Int) (m : Dict),
      (fun k => if k = "Received" then some (Val.vint t) else m k)
        "Message" = m "Message" := fun _ _ => rfl
  simp only [processList, receive_step, e1, e2, h1t, h2t, h3t, h1u,
    Bool.false_eq_true, if_false, if_true]
  rw [if_neg h2u, if_pos h3h]
  exact ⟨rfl, rfl⟩

/-- A reply frame correlating to nothing. -/
def badReplyFrame : Dict := fun k =>
  if k = "ReplyToId" then some (.vstr "zz") else none

/-- A frame with a message type no handler exists for. -/
def unknownFrame : Dict := fun k =>
  if k = "Message" then some (.vstr "Bogus") else none

/-- A frame handled by the built-in `on_KeepAlive`. -/
def keepAliveFrame : Dict := fun k =>
  if k = "Message" then some (.vstr "KeepAlive") else none

theorem dispatch_survives_bad_frames_witness :
    (processList ["on_KeepAlive"] demoState
        [(1, badReplyFrame), (2, unknownFrame), (3, keepAliveFrame)]).2
      = [.unexpectedReply, .unknownMessage,
         .dispatched ("on_" ++ pyStr (keepAliveFrame "Message"))] :=
  (dispatch_survives_bad_frames ["on_KeepAlive"] demoState 1 2 3
    badReplyFrame unknownFrame keepAliveFrame rfl rfl rfl (by decide) rfl
    (by decide)).1

/-- C9: one heartbeat iteration in which the pong wait times out, or the
delivered pong's recorded `PingId` differs from the `Id` stamped on the
Ping just told, performs exactly one reconnect cycle (disconnect then
connect of both channels), logs the reconnection, pauses one second, and
then falls through to the normal ping-interval sleep; a correctly
correlated pong reconnects nothing. -/
theorem ping_failure_reconnects (st : ActorState) (newId : String)
    (now : Int) (interval : Nat) :
    (ping_iteration st newId now interval none).2
      = [.tellPing, .disconnectPub, .disconnectSub, .connectSub,
         .connectPub, .logReconnect, .sleepSec 1, .sleepSec interval]
    ∧ (∀ pongMsg : Dict, on_Pong_record pongMsg ≠ some (.vstr newId) →
        (ping_iteration st newId now interval (some pongMsg)).2
          = [.tellPing, .logMismatch, .disconnectPub, .disconnectSub,
             .connectSub, .connectPub, .logReconnect, .sleepSec 1,
             .sleepSec interval])
    ∧ (∀ pongMsg : Dict, on_Pong_record pongMsg = some (.vstr newId) →
        (ping_iteration st newId now interval (some pongMsg)).2
          = [.tellPing, .sleepSec interval]) := by
  have hpid : ∀ nid : String,
      (tell st nid now (pingMsgOf st)).2 "Id" = some (.vstr nid) :=
    fun _ => rfl
  refine ⟨rfl, ?_, ?_⟩
  · intro pm h
    simp only [ping_iteration]
    rw [hpid, if_pos h]
    rfl
  · intro pm h
    simp only [ping_iteration]
    rw [hpid, if_neg (fun hne => hne h)]

/-- A pong recording a `PingId` different from the last told Ping. -/
def pongMismatch : Dict := fun k =>
  if k = "PingId" then some (.vstr "old") else none

theorem ping_failure_reconnects_witness :
    (ping_iteration demoState "g1" 0 7 (some pongMismatch)).2
      = [.tellPing, .logMismatch, .disconnectPub, .disconnectSub,
         .connectSub, .connectPub, .logReconnect, .sleepSec 1,
         .sleepSec 7] :=
  (ping_failure_reconnects demoState "g1" 0 7).2.1 pongMismatch (by decide)

end Pyzbus
